import Mathlib

set_option maxRecDepth 8000

namespace BackendCv

/-! Shallow embedding of `src/server.js`, a small Express backend bridging a
"Sign in with LinkedIn" OAuth flow.  JS `Map` objects (`stateValues`,
`stateTimeouts`, `userDataStore`) are modelled as association lists with
get/set/delete/has operations; the outbound HTTP calls performed with axios
are modelled as an `Option ProviderProfile` parameter of the callback handler
(`none` meaning the token exchange or the profile fetch failed); the random
values produced by `crypto.randomBytes` and `uuidv4` are passed in as
parameters of the handlers. -/

/-- Association list lookup, modelling `Map.prototype.get`. -/
def getKV {α : Type} : List (String × α) → String → Option α
  | [], _ => none
  | (a, b) :: rest, k => if a = k then some b else getKV rest k

/-- Association list insert-or-overwrite, modelling `Map.prototype.set`. -/
def setKV {α : Type} : List (String × α) → String → α → List (String × α)
  | [], k, v => [(k, v)]
  | (a, b) :: rest, k, v => if a = k then (k, v) :: rest else (a, b) :: setKV rest k v

/-- Association list removal of a key, modelling `Map.prototype.delete`
(a JS `Map` holds each key at most once, so removing every pair with the key
is observationally the same as removing the single entry). -/
def delKV {α : Type} : List (String × α) → String → List (String × α)
  | [], _ => []
  | (a, b) :: rest, k => if a = k then delKV rest k else (a, b) :: delKV rest k

/-- Membership test, modelling `Map.prototype.has`. -/
def hasKV {α : Type} (m : List (String × α)) (k : String) : Bool :=
  (getKV m k).isSome

/-- Remove the first occurrence of an element; used for the pool of pending
`setTimeout` timers, where each call to `setTimeout` creates a distinct timer. -/
def removeOne {α : Type} [DecidableEq α] : List α → α → List α
  | [], _ => []
  | x :: xs, a => if x = a then xs else x :: removeOne xs a

/-- Whether the first list is an initial segment of the second. -/
def listIsInit : List Char → List Char → Bool
  | [], _ => true
  | _ :: _, [] => false
  | a :: as, b :: bs => a == b && listIsInit as bs

/-- Model of JS `String.prototype.startsWith`. -/
def strStartsWith (s pat : String) : Bool :=
  listIsInit pat.data s.data

/-- Uppercase hexadecimal digit for a value below 16. -/
def hexDigit (n : Nat) : Char :=
  if n < 10 then Char.ofNat (48 + n) else Char.ofNat (55 + n)

/-- Percent-encoding of one byte, e.g. 32 becomes the three characters "%20". -/
def percentByte (b : Nat) : String :=
  String.mk [Char.ofNat 37, hexDigit (b / 16 % 16), hexDigit (b % 16)]

/-- UTF-8 byte sequence of a Unicode code point. -/
def utf8Units (n : Nat) : List Nat :=
  if n < 128 then [n]
  else if n < 2048 then [192 + n / 64, 128 + n % 64]
  else if n < 65536 then [224 + n / 4096, 128 + n / 64 % 64, 128 + n % 64]
  else [240 + n / 262144, 128 + n / 4096 % 64, 128 + n / 64 % 64, 128 + n % 64]

/-- Characters left unescaped by JS `encodeURIComponent`: alphanumerics and
the marks written here by code point: hyphen 45, underscore 95, dot 46,
bang 33, tilde 126, star 42, apostrophe 39, and parentheses 40 and 41. -/
def uriUnreserved (c : Char) : Bool :=
  c.isAlphanum || c == Char.ofNat 45 || c == Char.ofNat 95 || c == Char.ofNat 46 ||
    c == Char.ofNat 33 || c == Char.ofNat 126 || c == Char.ofNat 42 || c == Char.ofNat 39 ||
    c == Char.ofNat 40 || c == Char.ofNat 41

/-- Model of the JS global `encodeURIComponent`. -/
def encodeURIComponent (s : String) : String :=
  String.join (s.data.map fun c =>
    if uriUnreserved c then String.mk [c]
    else String.join ((utf8Units c.toNat).map percentByte))

/-- JS truthiness of a string-or-undefined value (`undefined` and the empty
string are falsy). -/
def jsTruthy : Option String → Bool
  | none => false
  | some s => !(s == "")

/-- JS template-literal interpolation of a string-or-undefined value:
`undefined` prints as the literal text "undefined". -/
def jsTemplate : Option String → String
  | none => "undefined"
  | some s => s

/-- Model of the JS expression `x || null` on a string-or-undefined value:
both `undefined` and the empty string collapse to `null`. -/
def jsOrNull : Option String → Option String
  | none => none
  | some s => if s == "" then none else some s

/-- Model of the JS expression `x || false` on a boolean-or-undefined value. -/
def jsOrFalse : Option Bool → Bool
  | none => false
  | some b => b

/-- The environment configuration read at the top of `server.js`. -/
structure Config where
  clientId : String
  clientSecret : String
  redirectUri : String
  baseUrl : String
deriving DecidableEq

/-- The JSON body returned by the provider userinfo endpoint; each field may
be absent. -/
structure ProviderProfile where
  name : Option String
  given_name : Option String
  family_name : Option String
  picture : Option String
  email : Option String
  email_verified : Option Bool
deriving DecidableEq

/-- The `userData` object built in the callback handler and stored in
`userDataStore`. -/
structure UserData where
  id : String
  fullName : Option String
  firstName : Option String
  lastName : Option String
  profilePicture : Option String
  email : Option String
  emailVerified : Bool
deriving DecidableEq

/-- The mutable process state of `server.js`: the three `Map`s declared at the
top of the file, plus the pool of pending `setTimeout` timers created by the
auth handler (each recorded as the state token it would delete together with
the instant at which it is due to fire). -/
structure ServerState where
  stateValues : List (String × String)
  stateTimeouts : List (String × Nat)
  userDataStore : List (String × UserData)
  scheduledTimers : List (String × Nat)
deriving DecidableEq

/-- The state at process start: all three maps empty, no pending timer. -/
def initialState : ServerState := ⟨[], [], [], []⟩

/-- The HTTP responses the four handlers can produce. -/
inductive Response where
  | status (code : Nat) (message : String)
  | jsonAuthUrl (authorizationUrl : String)
  | jsonUserData (d : UserData)
  | redirect (url : String)
deriving DecidableEq

/-- The `userData` object literal of the callback handler. -/
def mkUserData (templateId : String) (d : ProviderProfile) : UserData :=
  { id := templateId
    fullName := d.name
    firstName := d.given_name
    lastName := d.family_name
    profilePicture := d.picture
    email := jsOrNull d.email
    emailVerified := jsOrFalse d.email_verified }

/-- The profile-URL shape the import endpoint checks for. -/
def linkedinProfileStart : String := "https://www.linkedin.com/in/"

/-- Handler of POST `/api/linkedin/import`.  It validates `linkedinUrl` and
answers with a URL pointing at the auth endpoint; it touches no shared state. -/
def importStep (cfg : Config) (st : ServerState) (linkedinUrl templateId : Option String) :
    ServerState × Response :=
  match linkedinUrl with
  | none => (st, .status 400 "Veuillez fournir une URL LinkedIn valide.")
  | some u =>
    if strStartsWith u linkedinProfileStart then
      (st, .jsonAuthUrl (cfg.baseUrl ++ "/api/linkedin/auth?templateId=" ++
        encodeURIComponent (jsTemplate templateId)))
    else
      (st, .status 400 "Veuillez fournir une URL LinkedIn valide.")

/-- The requested OAuth scope string of the auth handler. -/
def oauthScope : String := "openid profile email w_member_social"

/-- The provider authorization URL built by the auth handler. -/
def authorizationUrl (cfg : Config) (state : String) : String :=
  "https://www.linkedin.com/oauth/v2/authorization?response_type=code&client_id=" ++
    cfg.clientId ++ "&redirect_uri=" ++ encodeURIComponent cfg.redirectUri ++
    "&state=" ++ state ++ "&scope=" ++ encodeURIComponent oauthScope

/-- Handler of GET `/api/linkedin/auth`.  `freshState` is the random hex token
produced by `crypto.randomBytes`, `now` the current instant in milliseconds;
the scheduled deletion is due 5 minutes (300000 ms) later. -/
def authStep (cfg : Config) (st : ServerState) (templateId : Option String)
    (freshState : String) (now : Nat) : ServerState × Response :=
  if jsTruthy templateId then
    ({ st with
        stateValues := setKV st.stateValues freshState (jsTemplate templateId)
        stateTimeouts := setKV st.stateTimeouts freshState (now + 300000)
        scheduledTimers := st.scheduledTimers ++ [(freshState, now + 300000)] },
      .redirect (authorizationUrl cfg freshState))
  else
    (st, .status 400 "Template ID is required.")

/-- Handler of GET `/api/linkedin/callback`.  `code` is forwarded to the
provider and never inspected; `net` is the combined outcome of the token
exchange and the profile fetch (`none` when either axios call throws);
`freshSession` is the value of `uuidv4()`. -/
def callbackStep (cfg : Config) (st : ServerState) (code stateParam : Option String)
    (net : Option ProviderProfile) (freshSession : String) : ServerState × Response :=
  if !(jsTruthy stateParam) || !(hasKV st.stateValues (jsTemplate stateParam)) then
    (st, .status 400 "Invalid state. Potential CSRF attack detected.")
  else
    let s := jsTemplate stateParam
    let tid := (getKV st.stateValues s).getD ""
    let st1 := { st with stateValues := delKV st.stateValues s }
    if tid == "" then
      (st1, .status 500 "Template ID is undefined.")
    else
      match net with
      | none => (st1, .status 500 "Failed to fetch LinkedIn data")
      | some d =>
        ({ st1 with userDataStore := setKV st1.userDataStore freshSession (mkUserData tid d) },
          .redirect ("http://localhost:5173/details/" ++ tid ++ "?sessionId=" ++ freshSession))

/-- Handler of GET `/api/user-data/:sessionId`. -/
def userDataStep (st : ServerState) (sessionId : String) : ServerState × Response :=
  match getKV st.userDataStore sessionId with
  | some d => (st, .jsonUserData d)
  | none => (st, .status 404 "Session data not found")

/-- The body of the `setTimeout` callback scheduled by the auth handler: it
deletes the token from `stateValues` and `stateTimeouts`, and the timer itself
leaves the pool of pending timers. -/
def fireTimer (st : ServerState) (token : String) (fireAt : Nat) : ServerState :=
  { st with
    stateValues := delKV st.stateValues token
    stateTimeouts := delKV st.stateTimeouts token
    scheduledTimers := removeOne st.scheduledTimers (token, fireAt) }

/-- One event of the single-threaded event loop: one of the four HTTP requests
(with the random values and outbound-call outcomes it consumes) or the firing
of a scheduled timer. -/
inductive Event where
  | importReq (linkedinUrl templateId : Option String)
  | authReq (templateId : Option String) (freshState : String)
  | callbackReq (code stateParam : Option String) (net : Option ProviderProfile)
      (freshSession : String)
  | userDataReq (sessionId : String)
  | timerFired (token : String) (fireAt : Nat)
deriving DecidableEq

/-- An event together with the instant (in milliseconds) at which the event
loop processes it. -/
structure TimedEvent where
  time : Nat
  ev : Event
deriving DecidableEq

/-- Process one event.  A timer can only fire while it is still pending. -/
def step (cfg : Config) (st : ServerState) (e : TimedEvent) : ServerState × Option Response :=
  match e.ev with
  | .importReq u tO =>
    let r := importStep cfg st u tO
    (r.1, some r.2)
  | .authReq tO f =>
    let r := authStep cfg st tO f e.time
    (r.1, some r.2)
  | .callbackReq c sO n f =>
    let r := callbackStep cfg st c sO n f
    (r.1, some r.2)
  | .userDataReq sid =>
    let r := userDataStep st sid
    (r.1, some r.2)
  | .timerFired tok d =>
    if (tok, d) ∈ st.scheduledTimers then (fireTimer st tok d, none) else (st, none)

/-- Process a list of events in order. -/
def run (cfg : Config) (st : ServerState) : List TimedEvent → ServerState
  | [] => st
  | e :: es => run cfg (step cfg st e).1 es

/-- A trace is timely when no event is processed while a pending timer is
already overdue: the JS runtime runs a due `setTimeout` callback before any
later work. -/
def timelyB (cfg : Config) : ServerState → List TimedEvent → Bool
  | _, [] => true
  | st, e :: es =>
    st.scheduledTimers.all (fun p => decide (e.time ≤ p.2)) &&
      timelyB cfg (step cfg st e).1 es

/-- No event of the list is an auth request that draws `s` as its random
state token (distinctness of the `crypto.randomBytes` outputs). -/
def noAuthFor (s : String) (l : List TimedEvent) : Bool :=
  l.all fun e =>
    match e.ev with
    | .authReq _ f => !(f == s)
    | _ => true

/-- No event of the list is a callback request presenting state token `s`. -/
def noCallbackFor (s : String) (l : List TimedEvent) : Bool :=
  l.all fun e =>
    match e.ev with
    | .callbackReq _ sO _ _ => !(sO == some s)
    | _ => true

/-- Whether the event is a callback request that draws `sid` as its fresh
session identifier. -/
def generatesSession (e : TimedEvent) (sid : String) : Bool :=
  match e.ev with
  | .callbackReq _ _ _ f => f == sid
  | _ => false

/-- Whether a response is a 4xx client error. -/
def isClientErrorResponse : Response → Bool
  | .status c _ => decide (400 ≤ c) && decide (c < 500)
  | _ => false

/-- Profile construction exactly as the spec claim words it: every provider
field is copied as is, with null only for a missing email and false only for
a missing email_verified. -/
def claimedProfile (templateId : String) (d : ProviderProfile) : UserData :=
  { id := templateId
    fullName := d.name
    firstName := d.given_name
    lastName := d.family_name
    profilePicture := d.picture
    email := d.email
    emailVerified := d.email_verified.getD false }

/-- Profile construction as amended: null is substituted for a missing or
empty email, false for a missing email_verified. -/
def amendedProfile (templateId : String) (d : ProviderProfile) : UserData :=
  { id := templateId
    fullName := d.name
    firstName := d.given_name
    lastName := d.family_name
    profilePicture := d.picture
    email := jsOrNull d.email
    emailVerified := d.email_verified.getD false }

/-- The validation guard of the import endpoint: the body field must be
present and start with the provider profile-URL shape. -/
def linkedinUrlAccepted : Option String → Bool
  | none => false
  | some u => strStartsWith u linkedinProfileStart

/-- A concrete configuration used by concrete witnesses. -/
def cfg0 : Config :=
  ⟨"client0", "secret0", "http://localhost:5000/api/linkedin/callback", "http://localhost:5000"⟩

/-- A concrete full provider profile. -/
def profile0 : ProviderProfile :=
  ⟨some "Jane Doe", some "Jane", some "Doe", some "pic", some "jd@mail.com", some true⟩

/-- A concrete provider profile carrying a present but empty email. -/
def profileEmptyEmail : ProviderProfile :=
  ⟨some "Jane Doe", some "Jane", some "Doe", none, some "", none⟩

/-- The state right after the auth endpoint issued token "s1" for template
"t1" at instant 0. -/
def stIssued : ServerState := (authStep cfg0 initialState (some "t1") "s1" 0).1

/-- The state right after the callback redeemed token "s1" successfully. -/
def stRedeemed : ServerState :=
  (callbackStep cfg0 stIssued (some "code1") (some "s1") (some profile0) "sess1").1

/-- A concrete stored user profile. -/
def ud0 : UserData := mkUserData "t1" profile0

/-- A concrete server state holding one session. -/
def stWithSession : ServerState := ⟨[], [], [("sess1", ud0)], []⟩

theorem getKV_setKV {α : Type} (m : List (String × α)) (k q : String) (v : α) :
    getKV (setKV m k v) q = if k = q then some v else getKV m q := by
  induction m with
  | nil => simp [setKV, getKV]
  | cons p rest ih =>
    obtain ⟨a, b⟩ := p
    by_cases h1 : a = k
    · subst h1
      by_cases h2 : a = q <;> simp [setKV, getKV, h2]
    · by_cases h2 : a = q
      · subst h2
        simp [setKV, getKV, h1, Ne.symm h1]
      · simp [setKV, getKV, h1, h2, ih]

theorem getKV_delKV {α : Type} (m : List (String × α)) (k q : String) :
    getKV (delKV m k) q = if k = q then none else getKV m q := by
  induction m with
  | nil => simp [delKV, getKV]
  | cons p rest ih =>
    obtain ⟨a, b⟩ := p
    by_cases h1 : a = k
    · subst h1
      by_cases h2 : a = q
      · subst h2
        simp [delKV, getKV, ih]
      · simp [delKV, getKV, h2, ih]
    · by_cases h2 : a = q
      · subst h2
        simp [delKV, getKV, h1, Ne.symm h1]
      · simp [delKV, getKV, h1, h2, ih]

theorem mem_removeOne_of_ne {α : Type} [DecidableEq α] (l : List α) (a b : α)
    (ha : a ∈ l) (hne : a ≠ b) : a ∈ removeOne l b := by
  induction l with
  | nil => cases ha
  | cons x xs ih =>
    by_cases hx : x = b
    · subst hx
      simp only [removeOne, if_pos rfl]
      rcases List.mem_cons.mp ha with h | h
      · exact absurd h hne
      · exact h
    · simp only [removeOne, if_neg hx]
      rcases List.mem_cons.mp ha with h | h
      · exact h ▸ List.mem_cons_self x (removeOne xs b)
      · exact List.mem_cons_of_mem x (ih h)

theorem run_append (cfg : Config) (st : ServerState) (l1 l2 : List TimedEvent) :
    run cfg st (l1 ++ l2) = run cfg (run cfg st l1) l2 := by
  induction l1 generalizing st with
  | nil => rfl
  | cons e es ih => simp [run, ih]

theorem timelyB_append (cfg : Config) (st : ServerState) (l1 l2 : List TimedEvent) :
    timelyB cfg st (l1 ++ l2) = (timelyB cfg st l1 && timelyB cfg (run cfg st l1) l2) := by
  induction l1 generalizing st with
  | nil => simp [timelyB, run]
  | cons e es ih => simp [timelyB, run, ih, Bool.and_assoc]

theorem importStep_state (cfg : Config) (st : ServerState) (u tO : Option String) :
    (importStep cfg st u tO).1 = st := by
  unfold importStep
  cases u with
  | none => rfl
  | some v =>
    by_cases h : strStartsWith v linkedinProfileStart = true <;> simp [h]

theorem userDataStep_state (st : ServerState) (sid : String) :
    (userDataStep st sid).1 = st := by
  unfold userDataStep
  cases h : getKV st.userDataStore sid <;> simp

theorem authStep_truthy (cfg : Config) (st : ServerState) (tid s : String) (t : Nat)
    (htid : tid ≠ "") :
    authStep cfg st (some tid) s t =
      ({ st with
          stateValues := setKV st.stateValues s tid
          stateTimeouts := setKV st.stateTimeouts s (t + 300000)
          scheduledTimers := st.scheduledTimers ++ [(s, t + 300000)] },
        Response.redirect (authorizationUrl cfg s)) := by
  simp [authStep, jsTruthy, jsTemplate, htid]

theorem authStep_falsy (cfg : Config) (st : ServerState) (tO : Option String) (s : String)
    (t : Nat) (h : jsTruthy tO = false) :
    authStep cfg st tO s t = (st, Response.status 400 "Template ID is required.") := by
  simp [authStep, h]

theorem callbackStep_missing (cfg : Config) (st : ServerState) (s : String)
    (c : Option String) (net : Option ProviderProfile) (f : String)
    (h : getKV st.stateValues s = none) :
    callbackStep cfg st c (some s) net f =
      (st, Response.status 400 "Invalid state. Potential CSRF attack detected.") := by
  simp [callbackStep, hasKV, jsTemplate, h]

theorem callbackStep_valid_none (cfg : Config) (st : ServerState) (s tid : String)
    (c : Option String) (f : String) (hs : s ≠ "") (hmap : getKV st.stateValues s = some tid)
    (htid : tid ≠ "") :
    callbackStep cfg st c (some s) none f =
      ({ st with stateValues := delKV st.stateValues s },
        Response.status 500 "Failed to fetch LinkedIn data") := by
  simp [callbackStep, jsTruthy, jsTemplate, hasKV, hmap, hs, htid]

theorem callbackStep_valid_some (cfg : Config) (st : ServerState) (s tid : String)
    (c : Option String) (d : ProviderProfile) (f : String)
    (hs : s ≠ "") (hmap : getKV st.stateValues s = some tid) (htid : tid ≠ "") :
    callbackStep cfg st c (some s) (some d) f =
      ({ st with
          stateValues := delKV st.stateValues s
          userDataStore := setKV st.userDataStore f (mkUserData tid d) },
        Response.redirect ("http://localhost:5173/details/" ++ tid ++ "?sessionId=" ++ f)) := by
  simp [callbackStep, jsTruthy, jsTemplate, hasKV, hmap, hs, htid]

theorem callbackStep_scheduledTimers (cfg : Config) (st : ServerState)
    (c sO : Option String) (net : Option ProviderProfile) (f : String) :
    (callbackStep cfg st c sO net f).1.scheduledTimers = st.scheduledTimers := by
  unfold callbackStep
  by_cases h1 : (!jsTruthy sO || !hasKV st.stateValues (jsTemplate sO)) = true
  · simp [h1]
  · simp only [h1]
    simp only [Bool.not_eq_true] at h1
    by_cases h2 : ((getKV st.stateValues (jsTemplate sO)).getD "" == "") = true
    · simp [h1, h2]
    · cases net <;> simp [h1, h2]

theorem callbackStep_stateTimeouts (cfg : Config) (st : ServerState)
    (c sO : Option String) (net : Option ProviderProfile) (f : String) :
    (callbackStep cfg st c sO net f).1.stateTimeouts = st.stateTimeouts := by
  unfold callbackStep
  by_cases h1 : (!jsTruthy sO || !hasKV st.stateValues (jsTemplate sO)) = true
  · simp [h1]
  · simp only [h1]
    simp only [Bool.not_eq_true] at h1
    by_cases h2 : ((getKV st.stateValues (jsTemplate sO)).getD "" == "") = true
    · simp [h1, h2]
    · cases net <;> simp [h1, h2]

theorem callbackStep_valid_empty (cfg : Config) (st : ServerState) (s : String)
    (c : Option String) (net : Option ProviderProfile) (f : String)
    (hs : s ≠ "") (hmap : getKV st.stateValues s = some "") :
    callbackStep cfg st c (some s) net f =
      ({ st with stateValues := delKV st.stateValues s },
        Response.status 500 "Template ID is undefined.") := by
  simp [callbackStep, jsTruthy, jsTemplate, hasKV, hmap, hs]

theorem authStep_userDataStore (cfg : Config) (st : ServerState) (tO : Option String)
    (f : String) (t : Nat) : (authStep cfg st tO f t).1.userDataStore = st.userDataStore := by
  unfold authStep
  split <;> rfl

theorem callbackStep_userDataStore_ne (cfg : Config) (st : ServerState)
    (c sO : Option String) (net : Option ProviderProfile) (f sid : String) (hne : f ≠ sid) :
    getKV (callbackStep cfg st c sO net f).1.userDataStore sid
      = getKV st.userDataStore sid := by
  unfold callbackStep
  by_cases h1 : (!jsTruthy sO || !hasKV st.stateValues (jsTemplate sO)) = true
  · simp [h1]
  · simp only [h1]
    simp only [Bool.not_eq_true] at h1
    by_cases h2 : ((getKV st.stateValues (jsTemplate sO)).getD "" == "") = true
    · simp [h1, h2]
    · cases net <;> simp [h1, h2, getKV_setKV, hne]

/-- Claim C1: issuing a state token for a templateId stores that templateId
under the token, redeeming it immediately via the callback returns it exactly
once (the successful callback redirect embeds it), and a second callback
request presenting the same state token fails with a 400 client error. -/
theorem c1_state_single_redemption (cfg : Config) (st : ServerState)
    (tid s f1 f2 : String) (t : Nat) (cx1 cx2 : Option String)
    (d : ProviderProfile) (net2 : Option ProviderProfile)
    (htid : tid ≠ "") (hs : s ≠ "") :
    getKV (authStep cfg st (some tid) s t).1.stateValues s = some tid ∧
    (callbackStep cfg (authStep cfg st (some tid) s t).1 cx1 (some s) (some d) f1).2
      = Response.redirect ("http://localhost:5173/details/" ++ tid ++ "?sessionId=" ++ f1) ∧
    callbackStep cfg
        (callbackStep cfg (authStep cfg st (some tid) s t).1 cx1 (some s) (some d) f1).1
        cx2 (some s) net2 f2
      = ((callbackStep cfg (authStep cfg st (some tid) s t).1 cx1 (some s) (some d) f1).1,
         Response.status 400 "Invalid state. Potential CSRF attack detected.") := by
  rw [authStep_truthy cfg st tid s t htid]
  have hmap : getKV (setKV st.stateValues s tid) s = some tid := by
    simp [getKV_setKV]
  refine ⟨hmap, ?_, ?_⟩
  · rw [callbackStep_valid_some cfg _ s tid cx1 d f1 hs hmap htid]
  · rw [callbackStep_valid_some cfg _ s tid cx1 d f1 hs hmap htid]
    apply callbackStep_missing
    simp [getKV_delKV]

/-- Claim C1 witness at a concrete issue-redeem-redeem scenario. -/
theorem c1_witness :
    getKV (authStep cfg0 initialState (some "t1") "s1" 0).1.stateValues "s1" = some "t1" ∧
    (callbackStep cfg0 (authStep cfg0 initialState (some "t1") "s1" 0).1 (some "c")
        (some "s1") (some profile0) "sess1").2
      = Response.redirect ("http://localhost:5173/details/" ++ "t1" ++ "?sessionId=" ++ "sess1") ∧
    callbackStep cfg0
        (callbackStep cfg0 (authStep cfg0 initialState (some "t1") "s1" 0).1 (some "c")
          (some "s1") (some profile0) "sess1").1
        none (some "s1") none "sess2"
      = ((callbackStep cfg0 (authStep cfg0 initialState (some "t1") "s1" 0).1 (some "c")
            (some "s1") (some profile0) "sess1").1,
         Response.status 400 "Invalid state. Potential CSRF attack detected.") :=
  c1_state_single_redemption cfg0 initialState "t1" "s1" "sess1" "sess2" 0 (some "c") none
    profile0 none (by decide) (by decide)

/-- Claim C2 counterexample: for a provider profile carrying a present but
empty email, the stored session profile has a null email where the claim,
which substitutes null only for a missing email, requires the empty string
(the code computes `email: data.email || null`). -/
theorem c2_claim_counterexample :
    getKV (callbackStep cfg0 stIssued none (some "s1") (some profileEmptyEmail)
        "sess1").1.userDataStore "sess1"
      = some (mkUserData "t1" profileEmptyEmail) ∧
    mkUserData "t1" profileEmptyEmail ≠ claimedProfile "t1" profileEmptyEmail := by
  decide

/-- Claim C2 (amended): a callback with a valid state whose outbound calls
succeed creates exactly one session, stored under the fresh session id, whose
profile copies the provider fields with null substituted for a missing or
empty email and false for a missing email_verified, and the response
redirects to the frontend URL embedding the templateId and the session id. -/
theorem c2_callback_creates_session (cfg : Config) (st : ServerState)
    (s tid : String) (c : Option String) (d : ProviderProfile) (f : String)
    (hs : s ≠ "") (hmap : getKV st.stateValues s = some tid) (htid : tid ≠ "") :
    callbackStep cfg st c (some s) (some d) f
      = ({ st with
            stateValues := delKV st.stateValues s
            userDataStore := setKV st.userDataStore f (mkUserData tid d) },
         Response.redirect ("http://localhost:5173/details/" ++ tid ++ "?sessionId=" ++ f)) ∧
    mkUserData tid d = amendedProfile tid d := by
  refine ⟨callbackStep_valid_some cfg st s tid c d f hs hmap htid, ?_⟩
  cases h : d.email_verified <;> simp [mkUserData, amendedProfile, jsOrFalse, h]

/-- Claim C2 witness at a concrete issued state and full provider profile. -/
theorem c2_witness :
    callbackStep cfg0 stIssued none (some "s1") (some profile0) "sess9"
      = ({ stIssued with
            stateValues := delKV stIssued.stateValues "s1"
            userDataStore := setKV stIssued.userDataStore "sess9" (mkUserData "t1" profile0) },
         Response.redirect ("http://localhost:5173/details/" ++ "t1" ++ "?sessionId=" ++ "sess9")) ∧
    mkUserData "t1" profile0 = amendedProfile "t1" profile0 :=
  c2_callback_creates_session cfg0 stIssued "s1" "t1" none profile0 "sess9"
    (by decide) (by decide) (by decide)

/-- Claim C4 counterexample: after the callback redeems token "s1", the
registry entry is gone but the 5-minute timer is still scheduled and the
token is still registered in the stateTimeouts map, contradicting the claim
that redemption cancels the pending expiry timer. -/
theorem c4_claim_counterexample :
    getKV stRedeemed.stateValues "s1" = none ∧
    ("s1", 300000) ∈ stRedeemed.scheduledTimers ∧
    getKV stRedeemed.stateTimeouts "s1" = some 300000 := by
  decide

/-- Claim C4 (amended): when the callback redeems a present state token it
removes the registry entry, but it does not cancel the pending expiry timer:
the scheduled timers and the stateTimeouts map are left exactly as they were
(the timer later fires and deletes the already absent entries harmlessly). -/
theorem c4_redeem_leaves_timer (cfg : Config) (st : ServerState) (s tid : String)
    (c : Option String) (net : Option ProviderProfile) (f : String)
    (hs : s ≠ "") (hmap : getKV st.stateValues s = some tid) :
    getKV (callbackStep cfg st c (some s) net f).1.stateValues s = none ∧
    (callbackStep cfg st c (some s) net f).1.scheduledTimers = st.scheduledTimers ∧
    (callbackStep cfg st c (some s) net f).1.stateTimeouts = st.stateTimeouts := by
  refine ⟨?_, callbackStep_scheduledTimers cfg st c (some s) net f,
    callbackStep_stateTimeouts cfg st c (some s) net f⟩
  by_cases htid : tid = ""
  · subst htid
    rw [callbackStep_valid_empty cfg st s c net f hs hmap]
    simp [getKV_delKV]
  · cases net with
    | none =>
      rw [callbackStep_valid_none cfg st s tid c f hs hmap htid]
      simp [getKV_delKV]
    | some d =>
      rw [callbackStep_valid_some cfg st s tid c d f hs hmap htid]
      simp [getKV_delKV]

/-- Claim C4 (amended) witness at a concrete redeemed token. -/
theorem c4_witness :
    getKV (callbackStep cfg0 stIssued (some "code1") (some "s1") (some profile0)
        "sess1").1.stateValues "s1" = none ∧
    (callbackStep cfg0 stIssued (some "code1") (some "s1") (some profile0)
        "sess1").1.scheduledTimers = stIssued.scheduledTimers ∧
    (callbackStep cfg0 stIssued (some "code1") (some "s1") (some profile0)
        "sess1").1.stateTimeouts = stIssued.stateTimeouts :=
  c4_redeem_leaves_timer cfg0 stIssued "s1" "t1" (some "code1") (some profile0) "sess1"
    (by decide) (by decide)

/-- Claim C5 counterexample: with a valid state but no code parameter the
callback is not rejected with a 400 client error; the handler proceeds, the
token exchange fails, and the response is the 500 server error. -/
theorem c5_claim_counterexample :
    (callbackStep cfg0 stIssued none (some "s1") none "sess1").2
      = Response.status 500 "Failed to fetch LinkedIn data" ∧
    isClientErrorResponse (callbackStep cfg0 stIssued none (some "s1") none "sess1").2
      = false := by
  decide

/-- Claim C5 (amended): the callback never validates the code parameter; a
request with a missing code and a valid state proceeds, consumes the state
entry, and when the token exchange fails the response is the 500 server
error, not a 4xx client error. -/
theorem c5_missing_code_not_rejected (cfg : Config) (st : ServerState) (s tid f : String)
    (hs : s ≠ "") (hmap : getKV st.stateValues s = some tid) (htid : tid ≠ "") :
    callbackStep cfg st none (some s) none f
      = ({ st with stateValues := delKV st.stateValues s },
         Response.status 500 "Failed to fetch LinkedIn data") ∧
    isClientErrorResponse (callbackStep cfg st none (some s) none f).2 = false := by
  have h := callbackStep_valid_none cfg st s tid none f hs hmap htid
  exact ⟨h, by rw [h]; rfl⟩

/-- Claim C5 (amended) witness at a concrete issued state. -/
theorem c5_witness :
    callbackStep cfg0 stIssued none (some "s1") none "sess1"
      = ({ stIssued with stateValues := delKV stIssued.stateValues "s1" },
         Response.status 500 "Failed to fetch LinkedIn data") ∧
    isClientErrorResponse (callbackStep cfg0 stIssued none (some "s1") none "sess1").2
      = false :=
  c5_missing_code_not_rejected cfg0 stIssued "s1" "t1" "sess1"
    (by decide) (by decide) (by decide)

/-- Claim C6: an import request whose linkedinUrl is absent or does not start
with the provider profile-URL shape is answered with a 400 client error and
the server state is returned unchanged: no state entry is created and the
session store is untouched. -/
theorem c6_import_rejects_invalid_url (cfg : Config) (st : ServerState)
    (linkedinUrl templateId : Option String)
    (hbad : linkedinUrlAccepted linkedinUrl = false) :
    importStep cfg st linkedinUrl templateId
      = (st, Response.status 400 "Veuillez fournir une URL LinkedIn valide.") := by
  cases linkedinUrl with
  | none => rfl
  | some u =>
    simp only [linkedinUrlAccepted] at hbad
    simp [importStep, hbad]

/-- Claim C6 witness at a concrete invalid URL. -/
theorem c6_witness :
    importStep cfg0 stIssued (some "https://evil.example/in/jdoe") (some "t1")
      = (stIssued, Response.status 400 "Veuillez fournir une URL LinkedIn valide.") :=
  c6_import_rejects_invalid_url cfg0 stIssued (some "https://evil.example/in/jdoe")
    (some "t1") (by decide)

/-- Claim C8: the auth endpoint answers a falsy templateId with a 400 client
error and unchanged state; for a present nonempty templateId it records the
state entry and the expiry timer and redirects to the provider authorization
URL embedding the client id, the encoded redirect URI, the state token, and
the encoded scope. -/
theorem c8_auth_endpoint (cfg : Config) (st : ServerState) (templateId : Option String)
    (s : String) (t : Nat) :
    (jsTruthy templateId = false →
      authStep cfg st templateId s t = (st, Response.status 400 "Template ID is required.")) ∧
    (∀ tid, templateId = some tid → tid ≠ "" →
      authStep cfg st templateId s t
        = ({ st with
              stateValues := setKV st.stateValues s tid
              stateTimeouts := setKV st.stateTimeouts s (t + 300000)
              scheduledTimers := st.scheduledTimers ++ [(s, t + 300000)] },
           Response.redirect
             ("https://www.linkedin.com/oauth/v2/authorization?response_type=code&client_id="
               ++ cfg.clientId ++ "&redirect_uri=" ++ encodeURIComponent cfg.redirectUri
               ++ "&state=" ++ s ++ "&scope=" ++ encodeURIComponent oauthScope))) := by
  constructor
  · exact fun h => authStep_falsy cfg st templateId s t h
  · intro tid htem hne
    subst htem
    rw [authStep_truthy cfg st tid s t hne]
    rfl

/-- Claim C8 witness at a missing and at a present templateId. -/
theorem c8_witness :
    authStep cfg0 initialState none "s1" 0
      = (initialState, Response.status 400 "Template ID is required.") ∧
    authStep cfg0 initialState (some "t1") "s1" 0
      = ({ initialState with
            stateValues := setKV initialState.stateValues "s1" "t1"
            stateTimeouts := setKV initialState.stateTimeouts "s1" (0 + 300000)
            scheduledTimers := initialState.scheduledTimers ++ [("s1", 0 + 300000)] },
         Response.redirect
           ("https://www.linkedin.com/oauth/v2/authorization?response_type=code&client_id="
             ++ cfg0.clientId ++ "&redirect_uri=" ++ encodeURIComponent cfg0.redirectUri
             ++ "&state=" ++ "s1" ++ "&scope=" ++ encodeURIComponent oauthScope)) :=
  ⟨(c8_auth_endpoint cfg0 initialState none "s1" 0).1 (by decide),
   (c8_auth_endpoint cfg0 initialState (some "t1") "s1" 0).2 "t1" rfl (by decide)⟩

/-- Claim C9: the callback deletes the state entry before the outbound token
exchange, so when the exchange or the profile fetch fails the response is the
500 server error, the state entry is not restored, and a repeated callback
with the same state token fails with the 400 CSRF client error while leaving
the state unchanged. -/
theorem c9_state_not_restored_on_failure (cfg : Config) (st : ServerState)
    (s tid f f2 : String) (c c2 : Option String) (net2 : Option ProviderProfile)
    (hs : s ≠ "") (hmap : getKV st.stateValues s = some tid) (htid : tid ≠ "") :
    (callbackStep cfg st c (some s) none f).2
      = Response.status 500 "Failed to fetch LinkedIn data" ∧
    getKV (callbackStep cfg st c (some s) none f).1.stateValues s = none ∧
    callbackStep cfg (callbackStep cfg st c (some s) none f).1 c2 (some s) net2 f2
      = ((callbackStep cfg st c (some s) none f).1,
         Response.status 400 "Invalid state. Potential CSRF attack detected.") := by
  rw [callbackStep_valid_none cfg st s tid c f hs hmap htid]
  refine ⟨rfl, ?_, ?_⟩
  · simp [getKV_delKV]
  · apply callbackStep_missing
    simp [getKV_delKV]

/-- Claim C9 witness at a concrete issued state and failing exchange. -/
theorem c9_witness :
    (callbackStep cfg0 stIssued (some "c0") (some "s1") none "sess1").2
      = Response.status 500 "Failed to fetch LinkedIn data" ∧
    getKV (callbackStep cfg0 stIssued (some "c0") (some "s1") none "sess1").1.stateValues "s1"
      = none ∧
    callbackStep cfg0 (callbackStep cfg0 stIssued (some "c0") (some "s1") none "sess1").1
        (some "c0") (some "s1") (some profile0) "sess2"
      = ((callbackStep cfg0 stIssued (some "c0") (some "s1") none "sess1").1,
         Response.status 400 "Invalid state. Potential CSRF attack detected.") :=
  c9_state_not_restored_on_failure cfg0 stIssued "s1" "t1" "sess1" "sess2" (some "c0")
    (some "c0") (some profile0) (by decide) (by decide) (by decide)

/-- Claim C10: the import endpoint never validates templateId: with a
linkedinUrl of the expected shape and no templateId in the body it answers
200 with an authorization URL whose query carries the literal text
templateId=undefined, the state being untouched. -/
theorem c10_import_ignores_templateId (cfg : Config) (st : ServerState) (u : String)
    (hu : strStartsWith u linkedinProfileStart = true) :
    importStep cfg st (some u) none
      = (st, Response.jsonAuthUrl
          (cfg.baseUrl ++ "/api/linkedin/auth?templateId=" ++ "undefined")) := by
  have he : encodeURIComponent (jsTemplate none) = "undefined" := by decide
  simp [importStep, hu, he]

/-- Claim C10 witness at a concrete valid profile URL. -/
theorem c10_witness :
    importStep cfg0 stIssued (some "https://www.linkedin.com/in/jdoe") none
      = (stIssued, Response.jsonAuthUrl
          (cfg0.baseUrl ++ "/api/linkedin/auth?templateId=" ++ "undefined")) :=
  c10_import_ignores_templateId cfg0 stIssued "https://www.linkedin.com/in/jdoe" (by decide)

/-- Claim C7: the user-data lookup answers 404 for a session id absent from
the store and returns exactly the stored profile otherwise, without touching
the state; and no event of the system mutates or deletes a stored profile
(provided the event does not draw that very session id as its fresh uuid), so
repeated lookups return the same profile. -/
theorem c7_user_data_lookup (cfg : Config) (st : ServerState) (sid : String) :
    (getKV st.userDataStore sid = none →
      userDataStep st sid = (st, Response.status 404 "Session data not found")) ∧
    (∀ d, getKV st.userDataStore sid = some d →
      userDataStep st sid = (st, Response.jsonUserData d)) ∧
    (∀ (e : TimedEvent) (d : UserData), getKV st.userDataStore sid = some d →
      generatesSession e sid = false →
      getKV (step cfg st e).1.userDataStore sid = some d) := by
  refine ⟨?_, ?_, ?_⟩
  · intro h
    simp [userDataStep, h]
  · intro d h
    simp [userDataStep, h]
  · intro e d hmem hfresh
    cases he : e.ev with
    | importReq u tO => simp [step, he, importStep_state, hmem]
    | authReq tO f =>
      simp only [step, he]
      simp [authStep_userDataStore, hmem]
    | callbackReq c sO n f =>
      have hne : f ≠ sid := by
        simp [generatesSession, he] at hfresh
        exact hfresh
      simp only [step, he]
      simp [callbackStep_userDataStore_ne cfg st c sO n f sid hne, hmem]
    | userDataReq s2 => simp [step, he, userDataStep_state, hmem]
    | timerFired tok dd =>
      simp only [step, he]
      split <;> simp [fireTimer, hmem]

/-- Claim C7 witness at a concrete stored session and a read-only event. -/
theorem c7_witness :
    userDataStep stWithSession "nope" = (stWithSession, Response.status 404 "Session data not found") ∧
    userDataStep stWithSession "sess1" = (stWithSession, Response.jsonUserData ud0) ∧
    getKV (step cfg0 stWithSession ⟨5, Event.userDataReq "sess1"⟩).1.userDataStore "sess1"
      = some ud0 :=
  ⟨(c7_user_data_lookup cfg0 stWithSession "nope").1 (by decide),
   (c7_user_data_lookup cfg0 stWithSession "sess1").2.1 ud0 (by decide),
   (c7_user_data_lookup cfg0 stWithSession "sess1").2.2 ⟨5, Event.userDataReq "sess1"⟩ ud0
     (by decide) (by decide)⟩

theorem callbackStep_stateValues_none (cfg : Config) (st : ServerState)
    (c sO : Option String) (net : Option ProviderProfile) (f q : String)
    (h : getKV st.stateValues q = none) :
    getKV (callbackStep cfg st c sO net f).1.stateValues q = none := by
  unfold callbackStep
  dsimp only
  split
  · exact h
  · split
    · rw [getKV_delKV]
      split
      · rfl
      · exact h
    · split <;>
      · rw [getKV_delKV]
        split
        · rfl
        · exact h

theorem step_preserves_gone_or_timer (cfg : Config) (s : String) (d : Nat)
    (st : ServerState) (e : TimedEvent)
    (hP : getKV st.stateValues s = none ∨ (s, d) ∈ st.scheduledTimers)
    (hA : ∀ tO f, e.ev = Event.authReq tO f → f ≠ s) :
    getKV (step cfg st e).1.stateValues s = none ∨
      (s, d) ∈ (step cfg st e).1.scheduledTimers := by
  cases he : e.ev with
  | importReq u tO =>
    simp only [step, he]
    rw [importStep_state]
    exact hP
  | authReq tO f =>
    have hf : f ≠ s := hA tO f he
    simp only [step, he]
    cases tO with
    | none =>
      rw [authStep_falsy cfg st none f e.time (by simp [jsTruthy])]
      exact hP
    | some tid =>
      by_cases ht : tid = ""
      · rw [authStep_falsy cfg st (some tid) f e.time (by simp [jsTruthy, ht])]
        exact hP
      · rw [authStep_truthy cfg st tid f e.time ht]
        rcases hP with h | h
        · left
          rw [getKV_setKV]
          simp [hf, h]
        · right
          exact List.mem_append_left _ h
  | callbackReq c sO n f =>
    simp only [step, he]
    rcases hP with h | h
    · left
      exact callbackStep_stateValues_none cfg st c sO n f s h
    · right
      rw [callbackStep_scheduledTimers]
      exact h
  | userDataReq sid =>
    simp only [step, he]
    rw [userDataStep_state]
    exact hP
  | timerFired tok dd =>
    simp only [step, he]
    split
    · by_cases htok : tok = s
      · subst htok
        left
        simp [fireTimer, getKV_delKV]
      · rcases hP with h | h
        · left
          simp [fireTimer, getKV_delKV, htok, h]
        · right
          refine mem_removeOne_of_ne _ _ _ h ?_
          intro hh
          exact htok (congrArg Prod.fst hh).symm
    · exact hP

theorem run_preserves_gone_or_timer (cfg : Config) (s : String) (d : Nat)
    (l : List TimedEvent) (st : ServerState)
    (hP : getKV st.stateValues s = none ∨ (s, d) ∈ st.scheduledTimers)
    (hA : noAuthFor s l = true) :
    getKV (run cfg st l).stateValues s = none ∨ (s, d) ∈ (run cfg st l).scheduledTimers := by
  induction l generalizing st with
  | nil => exact hP
  | cons e es ih =>
    simp only [noAuthFor, List.all_cons, Bool.and_eq_true] at hA
    refine ih (step cfg st e).1 ?_ ?_
    · refine step_preserves_gone_or_timer cfg s d st e hP ?_
      intro tO f hef
      have h1 := hA.1
      rw [hef] at h1
      simp only [beq_iff_eq, Bool.not_eq_eq_eq_not, Bool.not_true] at h1
      intro hfs
      rw [hfs] at h1
      simp at h1
    · simpa [noAuthFor] using hA.2

/-- Claim C3: a state token issued for a nonempty templateId and never
redeemed fails any callback presented after its 5-minute window: in a timely
trace (the runtime fires a due timer before any later event) in which no
other auth request draws the same random token and no callback redeems it,
once more than 300000 ms have passed since issuance the registry no longer
holds the token and the late callback is answered with the 400 CSRF client
error. -/
theorem c3_state_token_expires (cfg : Config) (pre mid : List TimedEvent)
    (t u : Nat) (tid s : String) (c : Option String) (net : Option ProviderProfile) (f : String)
    (htid : tid ≠ "")
    (htimely : timelyB cfg initialState
      (pre ++ ⟨t, Event.authReq (some tid) s⟩ :: mid ++
        [⟨u, Event.callbackReq c (some s) net f⟩]) = true)
    (hnoauth : noAuthFor s mid = true)
    (hnoredeem : noCallbackFor s mid = true)
    (hlate : t + 300000 < u) :
    getKV (run cfg initialState (pre ++ ⟨t, Event.authReq (some tid) s⟩ :: mid)).stateValues s
      = none ∧
    (step cfg (run cfg initialState (pre ++ ⟨t, Event.authReq (some tid) s⟩ :: mid))
        ⟨u, Event.callbackReq c (some s) net f⟩).2
      = some (Response.status 400 "Invalid state. Potential CSRF attack detected.") := by
  have hrun : run cfg initialState (pre ++ (⟨t, Event.authReq (some tid) s⟩ : TimedEvent) :: mid)
      = run cfg (step cfg (run cfg initialState pre) ⟨t, Event.authReq (some tid) s⟩).1 mid := by
    rw [show pre ++ (⟨t, Event.authReq (some tid) s⟩ : TimedEvent) :: mid
        = (pre ++ [⟨t, Event.authReq (some tid) s⟩]) ++ mid by simp]
    rw [run_append, run_append]
    simp [run]
  have hstepA : (step cfg (run cfg initialState pre) ⟨t, Event.authReq (some tid) s⟩).1
      = { run cfg initialState pre with
          stateValues := setKV (run cfg initialState pre).stateValues s tid
          stateTimeouts := setKV (run cfg initialState pre).stateTimeouts s (t + 300000)
          scheduledTimers :=
            (run cfg initialState pre).scheduledTimers ++ [(s, t + 300000)] } := by
    simp only [step]
    rw [authStep_truthy cfg (run cfg initialState pre) tid s t htid]
  have hPA : getKV (step cfg (run cfg initialState pre)
        ⟨t, Event.authReq (some tid) s⟩).1.stateValues s = none ∨
      (s, t + 300000) ∈ (step cfg (run cfg initialState pre)
        ⟨t, Event.authReq (some tid) s⟩).1.scheduledTimers := by
    right
    rw [hstepA]
    simp
  have hPmid := run_preserves_gone_or_timer cfg s (t + 300000) mid _ hPA hnoauth
  rw [← hrun] at hPmid
  have htl : ∀ p ∈ (run cfg initialState
      (pre ++ (⟨t, Event.authReq (some tid) s⟩ : TimedEvent) :: mid)).scheduledTimers,
      u ≤ p.2 := by
    rw [show pre ++ (⟨t, Event.authReq (some tid) s⟩ : TimedEvent) :: mid ++
          [(⟨u, Event.callbackReq c (some s) net f⟩ : TimedEvent)]
        = (pre ++ (⟨t, Event.authReq (some tid) s⟩ : TimedEvent) :: mid) ++
          [(⟨u, Event.callbackReq c (some s) net f⟩ : TimedEvent)] by simp] at htimely
    rw [timelyB_append] at htimely
    simp only [Bool.and_eq_true] at htimely
    have h2 := htimely.2
    simp only [timelyB, Bool.and_eq_true, List.all_eq_true] at h2
    intro p hp
    have h3 := h2.1 p hp
    simpa using h3
  have hgone : getKV (run cfg initialState
      (pre ++ (⟨t, Event.authReq (some tid) s⟩ : TimedEvent) :: mid)).stateValues s = none := by
    rcases hPmid with h | h
    · exact h
    · have := htl _ h
      simp only at this
      omega
  refine ⟨hgone, ?_⟩
  simp only [step]
  rw [callbackStep_missing cfg _ s c net f hgone]

/-- Claim C3 witness: a concrete timely trace in which the token issued at
instant 0 is never redeemed, its timer fires at 300000, and a callback at
300001 is rejected. -/
theorem c3_witness :
    getKV (run cfg0 initialState ([] ++ ⟨0, Event.authReq (some "t1") "s1"⟩ ::
        [⟨300000, Event.timerFired "s1" 300000⟩])).stateValues "s1" = none ∧
    (step cfg0 (run cfg0 initialState ([] ++ ⟨0, Event.authReq (some "t1") "s1"⟩ ::
        [⟨300000, Event.timerFired "s1" 300000⟩]))
        ⟨300001, Event.callbackReq none (some "s1") none "sess1"⟩).2
      = some (Response.status 400 "Invalid state. Potential CSRF attack detected.") :=
  c3_state_token_expires cfg0 [] [⟨300000, Event.timerFired "s1" 300000⟩] 0 300001 "t1" "s1"
    none none "sess1" (by decide) (by decide) (by decide) (by decide) (by decide)

end BackendCv
